import Mathlib

/-!
Verification development for the activation entry point of the
dotnet-interactive VS Code extension
(`src/dotnet-interactive-vscode/src/vscode/extension.ts`).

The activation code is asynchronous glue around host (VS Code) APIs.  We
embed it shallowly as pure Lean functions that return, besides their
values, an explicit trace of the host-visible effects they perform, in
program order.  Host behaviour (editor settings, subprocess readiness,
tunnel creation, acquisition commands) is supplied by a `Host` oracle
structure.  Helper modules that the fragment imports but that are not part
of the visible source (`ipynbUtilities`, `interactiveNotebook`,
`utilities.processArguments`, `notebookKernel.KernelId`) are passed in as
explicit parameters, so every theorem holds for any implementation of
them.  Components named by the specification whose implementation is not
in the visible source (`ClientMapper`, `StdioKernelTransport`) are
modelled from the specification text; their doc comments say so.
-/

namespace Interactive

/-- Model of `vscode.Uri`: an opaque wrapper of the raw string;
`Uri.parse` wraps the string it is given. -/
structure Uri where
  raw : String
deriving DecidableEq, Repr

def Uri.parse (s : String) : Uri := ⟨s⟩

/-- A JavaScript-ish configuration value as returned by
`WorkspaceConfiguration.get`. -/
inductive ConfigValue where
  | undef
  | num (n : Int)
  | str (s : String)
  | strs (l : List String)
deriving DecidableEq, Repr

/-- The argument template built at lines 43-46 of `extension.ts` from the
two `config.get` reads, and handed to `processArguments`. -/
structure ProcessStartTemplate where
  args : ConfigValue
  workingDirectory : ConfigValue
deriving DecidableEq, Repr

/-- Host-visible effects performed by the activation code and by the
client-creation factory, in program order. -/
inductive Effect where
  | appendLine (line : String)
  | getConfiguration (sectionName : String) (handle : Nat)
  | executeProcess (cmd : String) (args : List String)
  | acquireDotnet
  | awaitDotnetPromise
  | acquireInteractive (dotnetPath : String)
  | configGet (handle : Nat) (key : String)
  | newTransport (template : ProcessStartTemplate)
      (notebookPath dotnetPath launchWorkingDirectory : String)
  | waitForReady
  | asExternalUri (u : Uri)
  | setExternalUri (u : Uri)
  | returnTransport
  | registerLanguageProviders (delay : ConfigValue)
  | registerCloseHandler
deriving DecidableEq, Repr

/-- Oracle for the host environment.  `settingsAt t key` is the live
value of the editor setting `key` at logical time `t` (one tick per
client creation); per the source comment at line 40 ("using a fresh
config item so we don't get cached values") and §9 of the specification,
a `get` on the configuration handle reads the live value at the time of
the call. -/
structure Host where
  settingsAt : Nat → String → ConfigValue
  dotnetVersionOk : ConfigValue → Bool
  acquiredDotnetPath : String
  launchWorkingDirectory : String → String
  announcedPort : Nat → String → Nat
  tunnelUri : Uri → Uri

/-- The configuration handle obtained once at activation
(line 28 of `extension.ts`). -/
def activationConfigHandle : Nat := 0

/-- The configuration handle obtained inside `getDotnetPath`
(line 131 of `extension.ts`). -/
def getDotnetPathConfigHandle : Nat := 1

/-- Embedding of `getDotnetPath` (lines 128-143): reads
`minimumDotNetSdkVersion` from a fresh configuration object, checks the
installed dotnet version (`execute('dotnet', ['--version'])` plus the
`compare-versions` comparison, abstracted as `host.dotnetVersionOk`),
and either uses the global `dotnet` or runs the `dotnet.acquire`
command.  Returns the resolved path and the effect trace of the single
execution. -/
def getDotnetPath (host : Host) : String × List Effect :=
  if host.dotnetVersionOk (host.settingsAt 0 "minimumDotNetSdkVersion") then
    ("dotnet",
      [.getConfiguration "dotnet-interactive" getDotnetPathConfigHandle,
       .executeProcess "dotnet" ["--version"],
       .appendLine "Using dotnet from \"dotnet\""])
  else
    (host.acquiredDotnetPath,
      [.getConfiguration "dotnet-interactive" getDotnetPathConfigHandle,
       .executeProcess "dotnet" ["--version"],
       .acquireDotnet,
       .appendLine ("Using dotnet from \"" ++ host.acquiredDotnetPath ++ "\"")])

/-- The value of the shared `dotnetPromise` created once at line 32. -/
def dotnetPathOf (host : Host) : String := (getDotnetPath host).1

/-- Modelled from the spec: `StdioKernelTransport` is not under the
visible source; per §4.2-§4.3 it owns the launched process and, once
ready, `httpPort` is the port announced in the subprocess's readiness
line.  `π` is the (abstract) type of the `processArguments` result. -/
structure StdioKernelTransport (π : Type) where
  processStart : π
  httpPort : Nat

/-- Result of one run of the client-creation factory: its effect trace,
the argument template it built, the dotnet path it used, and the
transport it returned. -/
structure FactoryRun (π : Type) where
  trace : List Effect
  argsTemplate : ProcessStartTemplate
  dotnetPath : String
  transport : StdioKernelTransport π

/-- Embedding of the client-creation factory passed to the `ClientMapper`
constructor (lines 35-60 of `extension.ts`).  `pArgs` abstracts
`processArguments` (not in the visible source); `t` is the logical time
of this creation; the factory awaits the shared `dotnetPromise`, runs
the `dotnet-interactive.acquire` command, reads the two kernel-transport
settings on the activation-time configuration handle, constructs the
transport, awaits readiness, tunnels `http://localhost:<httpPort>` and
sets the external URI before returning the transport. -/
def clientFactory {π : Type} (host : Host)
    (pArgs : ProcessStartTemplate → String → String → String → π)
    (t : Nat) (notebookPath : String) : FactoryRun π :=
  let dotnetPath := dotnetPathOf host
  let launchWd := host.launchWorkingDirectory dotnetPath
  let kernelTransportArgs := host.settingsAt t "kernelTransportArgs"
  let kernelTransportWd := host.settingsAt t "kernelTransportWorkingDirectory"
  let argsTemplate : ProcessStartTemplate := ⟨kernelTransportArgs, kernelTransportWd⟩
  let processStart := pArgs argsTemplate notebookPath dotnetPath launchWd
  let httpPort := host.announcedPort t notebookPath
  let localUri := Uri.parse ("http://localhost:" ++ toString httpPort)
  let externalUri := host.tunnelUri localUri
  { trace :=
      [.appendLine ("Creating client for notebook \"" ++ notebookPath ++ "\""),
       .awaitDotnetPromise,
       .acquireInteractive dotnetPath,
       .configGet activationConfigHandle "kernelTransportArgs",
       .configGet activationConfigHandle "kernelTransportWorkingDirectory",
       .newTransport argsTemplate notebookPath dotnetPath launchWd,
       .waitForReady,
       .asExternalUri localUri,
       .setExternalUri externalUri,
       .returnTransport],
    argsTemplate := argsTemplate,
    dotnetPath := dotnetPath,
    transport := ⟨processStart, httpPort⟩ }

/-- JavaScript truthiness of a configuration value: `undefined`, the
number `0` and the empty string are falsy; every other number, every
non-empty string and every array (even an empty one) is truthy. -/
def jsTruthy : ConfigValue → Bool
  | .undef => false
  | .num n => n != 0
  | .str s => s != ""
  | .strs _ => true

/-- Embedding of `config.get('liveDiagnosticDelay') || 500` (line 65):
JavaScript `||` keeps a truthy left operand as is and falls back to 500
only on a falsy one. -/
def diagnosticDelayOf (v : ConfigValue) : ConfigValue :=
  if jsTruthy v then v else .num 500

/-- Effect trace of `activate` itself (lines 24-81): one
`getConfiguration` producing the activation handle, the single execution
of `getDotnetPath` backing the shared promise, then the registrations,
ending with `registerLanguageProviders` called with the computed
diagnostic delay. -/
def activateTrace (host : Host) : List Effect :=
  [.getConfiguration "dotnet-interactive" activationConfigHandle]
    ++ (getDotnetPath host).2
    ++ [.registerCloseHandler,
        .registerLanguageProviders
          (diagnosticDelayOf (host.settingsAt 0 "liveDiagnosticDelay"))]

/-- Full trace of one session: activation followed by the (sequentially
joined) traces of any number of factory creations, each with its own
logical time and notebook path. -/
def sessionTrace {π : Type} (host : Host)
    (pArgs : ProcessStartTemplate → String → String → String → π)
    (creations : List (Nat × String)) : List Effect :=
  activateTrace host
    ++ (creations.map (fun c => (clientFactory host pArgs c.1 c.2).trace)).flatten

/-- `true` exactly on the `executeProcess "dotnet" ["--version"]` effect
(the version check inside `getDotnetPath`). -/
def Effect.isVersionCheck : Effect → Bool
  | .executeProcess c a => c == "dotnet" && a == ["--version"]
  | _ => false

/-- `true` exactly on the `acquireDotnet` effect
(the `dotnet.acquire` command). -/
def Effect.isAcquireDotnet : Effect → Bool
  | .acquireDotnet => true
  | _ => false

def Effect.isWaitForReady : Effect → Bool
  | .waitForReady => true
  | _ => false

def Effect.isSetExternalUri : Effect → Bool
  | .setExternalUri _ => true
  | _ => false

def Effect.isReturnTransport : Effect → Bool
  | .returnTransport => true
  | _ => false

def Effect.isConfigGet : Effect → Bool
  | .configGet _ _ => true
  | _ => false

/-! ## Notebook document model and the language-sync handlers

`μ` is the type of cell metadata, `δ` of document metadata, `ω` of a
cell output.  The `id` field models JavaScript object identity, used by
the `c === cell` comparison in `findIndex`: two cell objects are the
same object exactly when their ids agree. -/

structure NotebookCell (μ ω : Type) where
  id : Nat
  cellKind : Nat
  text : String
  language : String
  outputs : List ω
  metadata : μ
deriving DecidableEq, Repr

structure NotebookDocument (μ δ ω : Type) where
  uri : Uri
  languages : List String
  metadata : δ
  cells : List (NotebookCell μ ω)
deriving DecidableEq, Repr

/-- `vscode.NotebookCellData` as assembled at lines 114-120. -/
structure NotebookCellData (μ ω : Type) where
  cellKind : Nat
  source : String
  language : String
  outputs : List ω
  metadata : μ
deriving DecidableEq, Repr

structure NotebookKernel where
  id : String
deriving DecidableEq, Repr

/-- The event payload of `onDidChangeActiveNotebookKernel`; an undefined
kernel is `none`. -/
structure KernelChangeEvent (μ δ ω : Type) where
  document : NotebookDocument μ δ ω
  kernel : Option NotebookKernel

/-- The event payload of `onDidChangeCellLanguage`. -/
structure LanguageChangeEvent (μ δ ω : Type) where
  cell : NotebookCell μ ω
  document : NotebookDocument μ δ ω
  language : String

/-- `DotNetCellMetadata` from `ipynbUtilities` (only its `language` field
is used by the fragment). -/
structure DotNetCellMetadata where
  language : String
deriving DecidableEq, Repr

/-- The helper functions imported from `ipynbUtilities` and
`interactiveNotebook`, which are not part of the visible source; the
embedding is parametric in them.  `Λ` is the type of
`getLanguageInfoMetadata` results, `Δ` of `getDotNetMetadata` results. -/
structure IpynbHelpers (μ δ : Type) (Δ Λ : Type) where
  getLanguageInfoMetadata : δ → Λ
  getDotNetMetadata : μ → Δ
  getCellLanguage : Δ → Λ → String → String
  isDotnetInteractiveLanguage : String → Bool
  getSimpleLanguage : String → String
  withDotNetMetadata : μ → DotNetCellMetadata → μ
  notebookCellLanguages : List String

/-- The single workspace edit produced by `updateDocumentLanguages`:
`edit.replaceNotebookCells(uri, 0, cells.length, cellData)`, plus the
assignment `document.languages = notebookCellLanguages`. -/
structure DocumentLanguagesUpdate (μ ω : Type) where
  languages : List String
  editUri : Uri
  editStart : Nat
  editStop : Nat
  cellData : List (NotebookCellData μ ω)
deriving DecidableEq, Repr

/-- Embedding of `updateDocumentLanguages` (lines 102-126).  `kernelId`
is the `KernelId` constant imported from `notebookKernel` (not in the
visible source).  Returns the edit it applies, or `none` when the guard
`e.kernel?.id === KernelId` fails (kernel undefined, or a different
id), in which case the document is left untouched. -/
def updateDocumentLanguages {μ δ ω Δ Λ : Type} (h : IpynbHelpers μ δ Δ Λ)
    (kernelId : String) (e : KernelChangeEvent μ δ ω) :
    Option (DocumentLanguagesUpdate μ ω) :=
  match e.kernel with
  | none => none
  | some k =>
    if k.id = kernelId then
      let documentLanguageInfo := h.getLanguageInfoMetadata e.document.metadata
      some
        { languages := h.notebookCellLanguages,
          editUri := e.document.uri,
          editStart := 0,
          editStop := e.document.cells.length,
          cellData := e.document.cells.map fun cell =>
            { cellKind := cell.cellKind,
              source := cell.text,
              language := h.getCellLanguage (h.getDotNetMetadata cell.metadata)
                documentLanguageInfo cell.language,
              outputs := cell.outputs,
              metadata := cell.metadata } }
    else none

/-- The single workspace edit produced by `updateCellLanguageInMetadata`:
`edit.replaceNotebookCellMetadata(uri, cellIndex, metadata)`. -/
structure CellMetadataEdit (μ : Type) where
  uri : Uri
  index : Nat
  metadata : μ
deriving DecidableEq, Repr

/-- Embedding of `updateCellLanguageInMetadata` (lines 87-100): when the
changed-to language is a dotnet-interactive language and the cell is
found in the document (`findIndex` by object identity is not `-1`),
replace that one cell's metadata with
`withDotNetMetadata(cell.metadata, \x7b language: getSimpleLanguage(language) \x7d)`;
otherwise do nothing. -/
def updateCellLanguageInMetadata {μ δ ω Δ Λ : Type} (h : IpynbHelpers μ δ Δ Λ)
    (ev : LanguageChangeEvent μ δ ω) : Option (CellMetadataEdit μ) :=
  if h.isDotnetInteractiveLanguage ev.language then
    match ev.document.cells.findIdx? (fun c => c.id == ev.cell.id) with
    | some cellIndex =>
      some
        { uri := ev.document.uri,
          index := cellIndex,
          metadata := h.withDotNetMetadata ev.cell.metadata
            ⟨h.getSimpleLanguage ev.language⟩ }
    | none => none
  else none

/-! ## ClientMapper (modelled from the spec)

The `ClientMapper` implementation is not under the visible source; only
its construction and call sites are.  The following definitions are
modelled from §3, §4.4 and §8 of the specification. -/

/-- A call made on the client mapper by an event handler. -/
inductive MapperCall where
  | closeClient (uri : Uri)
deriving DecidableEq, Repr

/-- Embedding of the close handler registered at line 79:
`onDidCloseNotebookDocument(notebookDocument => clientMapper.closeClient(notebookDocument.uri))`.
Returns the list of mapper calls one firing of the event performs. -/
def onDidCloseNotebookDocument {μ δ ω : Type} (doc : NotebookDocument μ δ ω) :
    List MapperCall :=
  [.closeClient doc.uri]

/-- Modelled from the spec: the ClientMapper table, a mapping from
document identity (URI) to transport, represented as an association
list with unique keys; transports are identified by a numeric id. -/
abbrev ClientMapperTable : Type := List (Uri × Nat)

/-- Modelled from the spec (§4.4): `closeClient(documentIdentity)`
removes and disposes the transport for that identity if present and is a
no-op if absent.  Returns the new table and the ids of the disposed
transports. -/
def closeClient (table : ClientMapperTable) (u : Uri) :
    ClientMapperTable × List Nat :=
  (table.filter (fun e => !(e.1 == u)),
   (table.filter (fun e => e.1 == u)).map (fun e => e.2))

/-- Modelled from the spec (§4.4, §8): the per-key single-flight state of
`getOrCreateClient` for one fixed document identity.  `absent`: no entry
cached; `inFlight w`: one factory invocation running with `w` callers
awaiting it; `cached t`: transport `t` stored. -/
inductive KeyState where
  | absent
  | inFlight (waiters : Nat)
  | cached (transportId : Nat)
deriving DecidableEq, Repr

/-- What one caller of `getOrCreateClient` eventually observes. -/
inductive CallResult where
  | transport (id : Nat)
  | failure
deriving DecidableEq, Repr

structure SingleFlightState where
  key : KeyState
  launches : Nat
  results : List CallResult
deriving DecidableEq, Repr

def SingleFlightState.initial : SingleFlightState := ⟨.absent, 0, []⟩

/-- Modelled from the spec (§4.4): one caller arrives at
`getOrCreateClient` for the fixed identity.  On `absent` it takes the
per-key creation lock and invokes the factory (one launch) and awaits;
on `inFlight` it joins the waiters of the in-flight creation without a
second factory invocation; on `cached` it returns the stored transport
immediately. -/
def arrive (s : SingleFlightState) : SingleFlightState :=
  match s.key with
  | .absent => { s with key := .inFlight 1, launches := s.launches + 1 }
  | .inFlight w => { s with key := .inFlight (w + 1) }
  | .cached t => { s with results := s.results ++ [.transport t] }

/-- Modelled from the spec (§4.4, §7): the in-flight factory invocation
completes.  On success (`some t`) every waiter observes transport `t`
and the result is stored; on failure (`none`) every waiter observes the
failure and the key is NOT cached, so a later call retries creation from
scratch.  A completion with no creation in flight changes nothing. -/
def complete (s : SingleFlightState) (outcome : Option Nat) : SingleFlightState :=
  match s.key, outcome with
  | .inFlight w, some t =>
    { key := .cached t, launches := s.launches,
      results := s.results ++ List.replicate w (.transport t) }
  | .inFlight w, none =>
    { key := .absent, launches := s.launches,
      results := s.results ++ List.replicate w .failure }
  | _, _ => s

/-- `n` concurrent callers of `getOrCreateClient` for the same identity:
all `n` arrivals interleave before the single in-flight creation
completes with `outcome`. -/
def runConcurrent (n : Nat) (outcome : Option Nat) : SingleFlightState :=
  complete (arrive^[n] SingleFlightState.initial) outcome

/-! ## Readiness handshake (modelled from the spec) -/

inductive HandshakeError where
  | handshakeTimeout
  | handshakeProtocolError
deriving DecidableEq, Repr

/-- Outcome of `waitForReady()`: its result and the wall-clock time at
which it resolves. -/
structure WaitOutcome where
  result : Except HandshakeError Nat
  resolveTime : Nat
deriving Repr

/-- One observable event on the subprocess during the handshake: an
output line on standard output, or the process exiting. -/
inductive SubprocessEvent where
  | line (s : String)
  | exited
deriving DecidableEq, Repr

/-- Modelled from the spec (§4.2, §8): `waitForReady()` consumes the
subprocess's events, each tagged with its arrival time, until before
the configured bound either a readiness line (one that `parsePort`
recognizes as encoding a bound port number) arrives — resolving with
the announced port at that time — or a recognized failure line arrives
or the process exits — failing with `HandshakeProtocolError` at that
time.  If none of these happens before the bound — in particular when
the subprocess never writes at all — it fails with `HandshakeTimeout`
at time `bound`, never suspending past the bound. -/
def waitForReadyModel (parsePort : String → Option Nat)
    (isFailureLine : String → Bool) (bound : Nat) :
    List (Nat × SubprocessEvent) → WaitOutcome
  | [] => ⟨.error .handshakeTimeout, bound⟩
  | (t, .exited) :: _ =>
    if t < bound then ⟨.error .handshakeProtocolError, t⟩
    else ⟨.error .handshakeTimeout, bound⟩
  | (t, .line s) :: rest =>
    if t < bound then
      if isFailureLine s then ⟨.error .handshakeProtocolError, t⟩
      else
        match parsePort s with
        | some p => ⟨.ok p, t⟩
        | none => waitForReadyModel parsePort isFailureLine bound rest
    else ⟨.error .handshakeTimeout, bound⟩

/-- `true` when every event of the stream is an output line that is
neither a recognized readiness line nor a recognized failure line, and
the process does not exit: the subprocess never announces readiness and
never triggers the protocol-error path. -/
def noProtocolEvent (parsePort : String → Option Nat)
    (isFailureLine : String → Bool) (events : List (Nat × SubprocessEvent)) : Bool :=
  events.all fun e =>
    match e.2 with
    | .exited => false
    | .line s => (parsePort s == none) && (isFailureLine s == false)

/-! ## Concrete fixtures used by witness theorems -/

def sampleHost : Host :=
  { settingsAt := fun t key =>
      if key = "kernelTransportArgs" then .strs ["--kta", toString t]
      else if key = "kernelTransportWorkingDirectory" then .str "wd"
      else if key = "liveDiagnosticDelay" then .num 0
      else if key = "minimumDotNetSdkVersion" then .str "5.0"
      else .undef,
    dotnetVersionOk := fun _ => true,
    acquiredDotnetPath := "/acquired/dotnet",
    launchWorkingDirectory := fun _ => "/launch/wd",
    announcedPort := fun _ _ => 8765,
    tunnelUri := fun u => ⟨"tunnel:" ++ u.raw⟩ }

def samplePArgs : ProcessStartTemplate → String → String → String →
    ProcessStartTemplate × String × String × String :=
  fun template notebookPath dotnetPath wd => (template, notebookPath, dotnetPath, wd)

def sampleHelpers : IpynbHelpers String String String String :=
  { getLanguageInfoMetadata := fun d => d,
    getDotNetMetadata := fun m => m,
    getCellLanguage := fun dm li fallback => dm ++ "|" ++ li ++ "|" ++ fallback,
    isDotnetInteractiveLanguage := fun l => l == "dotnet-interactive.csharp",
    getSimpleLanguage := fun l => if l == "dotnet-interactive.csharp" then "csharp" else l,
    withDotNetMetadata := fun m dm => m ++ ":" ++ dm.language,
    notebookCellLanguages := ["dotnet-interactive.csharp", "dotnet-interactive.fsharp"] }

def sampleCell : NotebookCell String String :=
  { id := 0, cellKind := 1, text := "Console.WriteLine(1);", language := "csharp",
    outputs := ["out"], metadata := "meta" }

def sampleDoc : NotebookDocument String String String :=
  { uri := ⟨"file:///a.dib"⟩, languages := [], metadata := "docmeta",
    cells := [sampleCell] }

def sampleTable : ClientMapperTable :=
  [(⟨"file:///a.dib"⟩, 5), (⟨"file:///b.dib"⟩, 7)]

/-- A concrete readiness-line recognizer: accepts exactly the line
announcing port 8765. -/
def sampleParsePort : String → Option Nat :=
  fun s => if s == "port:8765" then some 8765 else none

/-- A concrete failure-line recognizer. -/
def sampleIsFailureLine : String → Bool :=
  fun s => s == "kernel failed"

/-! ## Theorems -/

/-- Each single factory trace performs no dotnet version check of its
own (it only awaits the shared promise). -/
theorem clientFactory_trace_no_versionCheck {π : Type} (host : Host)
    (pArgs : ProcessStartTemplate → String → String → String → π)
    (t : Nat) (notebookPath : String) :
    ((clientFactory host pArgs t notebookPath).trace).countP Effect.isVersionCheck = 0 :=
  rfl

/-- Each single factory trace runs no `dotnet.acquire` command of its
own. -/
theorem clientFactory_trace_no_acquireDotnet {π : Type} (host : Host)
    (pArgs : ProcessStartTemplate → String → String → String → π)
    (t : Nat) (notebookPath : String) :
    ((clientFactory host pArgs t notebookPath).trace).countP Effect.isAcquireDotnet = 0 :=
  rfl

/-- The single execution of `getDotnetPath` behind the shared promise
performs the version check exactly once and the acquire command at most
once. -/
theorem getDotnetPath_counts (host : Host) :
    ((getDotnetPath host).2.countP Effect.isVersionCheck = 1)
    ∧ ((getDotnetPath host).2.countP Effect.isAcquireDotnet ≤ 1) := by
  unfold getDotnetPath
  rcases host.dotnetVersionOk (host.settingsAt 0 "minimumDotNetSdkVersion") with _ | _
  · exact ⟨rfl, Nat.le_refl 1⟩
  · exact ⟨rfl, Nat.zero_le 1⟩

/-- C1: the client-creation factory re-reads `kernelTransportArgs` and
`kernelTransportWorkingDirectory` at creation time: the reads appear in
the creation's own trace, on the single configuration handle obtained at
activation; the argument template is built from the live settings at the
creation's own logical time and is what `processArguments` receives, so
a configuration change made between two creations is reflected in the
second creation's process arguments. -/
theorem kernelTransport_config_read_fresh {π : Type} (host : Host)
    (pArgs : ProcessStartTemplate → String → String → String → π)
    (t₁ t₂ : Nat) (p₁ p₂ : String)
    (hdiff : host.settingsAt t₁ "kernelTransportArgs" ≠
      host.settingsAt t₂ "kernelTransportArgs") :
    ((clientFactory host pArgs t₂ p₂).argsTemplate =
      ⟨host.settingsAt t₂ "kernelTransportArgs",
       host.settingsAt t₂ "kernelTransportWorkingDirectory"⟩)
    ∧ (Effect.configGet activationConfigHandle "kernelTransportArgs" ∈
        (clientFactory host pArgs t₂ p₂).trace)
    ∧ (Effect.configGet activationConfigHandle "kernelTransportWorkingDirectory" ∈
        (clientFactory host pArgs t₂ p₂).trace)
    ∧ (∀ h k, Effect.configGet h k ∈ (clientFactory host pArgs t₂ p₂).trace →
        h = activationConfigHandle)
    ∧ ((clientFactory host pArgs t₂ p₂).transport.processStart =
        pArgs (clientFactory host pArgs t₂ p₂).argsTemplate p₂ (dotnetPathOf host)
          (host.launchWorkingDirectory (dotnetPathOf host)))
    ∧ ((clientFactory host pArgs t₁ p₁).argsTemplate ≠
        (clientFactory host pArgs t₂ p₂).argsTemplate) := by
  refine ⟨rfl, by simp [clientFactory], by simp [clientFactory], ?_, rfl, ?_⟩
  · intro h k hmem
    have hmem2 : Effect.configGet h k ∈
        (clientFactory host pArgs t₂ p₂).trace.filter Effect.isConfigGet :=
      List.mem_filter.mpr ⟨hmem, rfl⟩
    rw [show (clientFactory host pArgs t₂ p₂).trace.filter Effect.isConfigGet =
        [Effect.configGet activationConfigHandle "kernelTransportArgs",
         Effect.configGet activationConfigHandle "kernelTransportWorkingDirectory"]
      from rfl] at hmem2
    cases hmem2 with
    | head => rfl
    | tail _ h3 =>
      cases h3 with
      | head => rfl
      | tail _ h4 => cases h4
  · intro heq
    exact hdiff (congrArg ProcessStartTemplate.args heq)

/-- C1 witness: a concrete host whose `kernelTransportArgs` setting
differs between creation times 0 and 1; the factory's argument templates
for the two creations differ accordingly. -/
theorem kernelTransport_config_read_fresh_witness :
    (sampleHost.settingsAt 0 "kernelTransportArgs" ≠
      sampleHost.settingsAt 1 "kernelTransportArgs")
    ∧ ((clientFactory sampleHost samplePArgs 0 "nb").argsTemplate ≠
        (clientFactory sampleHost samplePArgs 1 "nb").argsTemplate) :=
  ⟨by decide,
   (kernelTransport_config_read_fresh sampleHost samplePArgs 0 1 "nb" "nb"
      (by decide)).2.2.2.2.2⟩

/-- C2: in every factory run, `waitForReady` happens before
`setExternalUri`, `setExternalUri` is performed exactly once (on every
created transport), and the transport is returned only after both, as
the very last step of the run. -/
theorem waitForReady_before_setExternalUri {π : Type} (host : Host)
    (pArgs : ProcessStartTemplate → String → String → String → π)
    (t : Nat) (notebookPath : String) :
    (((clientFactory host pArgs t notebookPath).trace).countP Effect.isWaitForReady = 1)
    ∧ (((clientFactory host pArgs t notebookPath).trace).countP Effect.isSetExternalUri = 1)
    ∧ (((clientFactory host pArgs t notebookPath).trace).findIdx Effect.isWaitForReady <
        ((clientFactory host pArgs t notebookPath).trace).findIdx Effect.isSetExternalUri)
    ∧ (((clientFactory host pArgs t notebookPath).trace).findIdx Effect.isSetExternalUri <
        ((clientFactory host pArgs t notebookPath).trace).findIdx Effect.isReturnTransport)
    ∧ (((clientFactory host pArgs t notebookPath).trace).getLast? =
        some .returnTransport) :=
  ⟨rfl, rfl, (by norm_num : (6 : Nat) < 8), (by norm_num : (8 : Nat) < 9), rfl⟩

/-- C3: the URI handed to the host's `asExternalUri` is parsed from
`"http://localhost:"` concatenated with the transport's negotiated
`httpPort`, which is the port announced in the readiness line, and the
tunnel result is what `setExternalUri` receives. -/
theorem externalUri_from_announced_port {π : Type} (host : Host)
    (pArgs : ProcessStartTemplate → String → String → String → π)
    (t : Nat) (notebookPath : String) :
    (Effect.asExternalUri
        (Uri.parse ("http://localhost:" ++
          toString (clientFactory host pArgs t notebookPath).transport.httpPort)) ∈
      (clientFactory host pArgs t notebookPath).trace)
    ∧ ((clientFactory host pArgs t notebookPath).transport.httpPort =
        host.announcedPort t notebookPath)
    ∧ (Effect.setExternalUri
        (host.tunnelUri (Uri.parse ("http://localhost:" ++
          toString (host.announcedPort t notebookPath)))) ∈
      (clientFactory host pArgs t notebookPath).trace) :=
  ⟨by simp [clientFactory], rfl, by simp [clientFactory]⟩

/-- An effect count that is zero on every single factory trace is zero
on the joined traces of any list of creations. -/
theorem factory_traces_countP_zero {π : Type} (host : Host)
    (pArgs : ProcessStartTemplate → String → String → String → π)
    (creations : List (Nat × String)) (p : Effect → Bool)
    (hp : ∀ c : Nat × String, ((clientFactory host pArgs c.1 c.2).trace).countP p = 0) :
    ((creations.map (fun c => (clientFactory host pArgs c.1 c.2).trace)).flatten).countP p
      = 0 := by
  induction creations with
  | nil => rfl
  | cons hd tl ih => simp [List.countP_append, hp hd, ih]

/-- C9: within one session, the dotnet version check executes exactly
once and the `dotnet.acquire` command at most once, no matter how many
clients the factory creates; every creation merely awaits the shared
promise and uses the same resolved dotnet path. -/
theorem dotnet_acquired_once {π : Type} (host : Host)
    (pArgs : ProcessStartTemplate → String → String → String → π)
    (creations : List (Nat × String)) :
    ((sessionTrace host pArgs creations).countP Effect.isVersionCheck = 1)
    ∧ ((sessionTrace host pArgs creations).countP Effect.isAcquireDotnet ≤ 1)
    ∧ (∀ c ∈ creations, (clientFactory host pArgs c.1 c.2).dotnetPath = dotnetPathOf host)
    ∧ (∀ c ∈ creations,
        Effect.awaitDotnetPromise ∈ (clientFactory host pArgs c.1 c.2).trace) := by
  have hv := factory_traces_countP_zero host pArgs creations Effect.isVersionCheck
    (fun c => clientFactory_trace_no_versionCheck host pArgs c.1 c.2)
  have hacq := factory_traces_countP_zero host pArgs creations Effect.isAcquireDotnet
    (fun c => clientFactory_trace_no_acquireDotnet host pArgs c.1 c.2)
  have ha1 : ([Effect.getConfiguration "dotnet-interactive" activationConfigHandle] :
      List Effect).countP Effect.isVersionCheck = 0 := rfl
  have ha2 : ([Effect.registerCloseHandler,
      Effect.registerLanguageProviders
        (diagnosticDelayOf (host.settingsAt 0 "liveDiagnosticDelay"))] :
      List Effect).countP Effect.isVersionCheck = 0 := rfl
  have hb1 : ([Effect.getConfiguration "dotnet-interactive" activationConfigHandle] :
      List Effect).countP Effect.isAcquireDotnet = 0 := rfl
  have hb2 : ([Effect.registerCloseHandler,
      Effect.registerLanguageProviders
        (diagnosticDelayOf (host.settingsAt 0 "liveDiagnosticDelay"))] :
      List Effect).countP Effect.isAcquireDotnet = 0 := rfl
  refine ⟨?_, ?_, fun c _ => rfl, fun c _ => by simp [clientFactory]⟩
  · simp only [sessionTrace, activateTrace, List.countP_append, hv, ha1, ha2,
      (getDotnetPath_counts host).1]
  · have := (getDotnetPath_counts host).2
    simp only [sessionTrace, activateTrace, List.countP_append, hacq, hb1, hb2]
    omega

/-- C9 witness: a session with two concrete creations performs the
version check exactly once, and the first creation uses the shared
promise's dotnet path. -/
theorem dotnet_acquired_once_witness :
    ((sessionTrace sampleHost samplePArgs [(0, "a"), (1, "b")]).countP
      Effect.isVersionCheck = 1)
    ∧ ((clientFactory sampleHost samplePArgs 0 "a").dotnetPath = dotnetPathOf sampleHost) :=
  ⟨(dotnet_acquired_once sampleHost samplePArgs [(0, "a"), (1, "b")]).1,
   (dotnet_acquired_once sampleHost samplePArgs [(0, "a"), (1, "b")]).2.2.1 (0, "a")
     (List.mem_cons_self _ _)⟩

/-- C10: the diagnostic delay is 500 exactly when the
`liveDiagnosticDelay` read is falsy — absent, the number zero, or the
empty string — and is the configured value itself for every truthy read
(a nonzero number, and also a non-empty string or an array, which
JavaScript `||` keeps); `registerLanguageProviders` receives exactly
this computed delay during activation. -/
theorem liveDiagnosticDelay_fallback (host : Host) :
    (diagnosticDelayOf .undef = .num 500)
    ∧ (diagnosticDelayOf (.num 0) = .num 500)
    ∧ (diagnosticDelayOf (.str "") = .num 500)
    ∧ (∀ v, jsTruthy v = false → diagnosticDelayOf v = .num 500)
    ∧ (∀ n : Int, n ≠ 0 → diagnosticDelayOf (.num n) = .num n)
    ∧ (∀ v, jsTruthy v = true → diagnosticDelayOf v = v)
    ∧ (Effect.registerLanguageProviders
        (diagnosticDelayOf (host.settingsAt 0 "liveDiagnosticDelay")) ∈
      activateTrace host) := by
  refine ⟨rfl, rfl, rfl, ?_, ?_, ?_, ?_⟩
  · intro v hv
    simp [diagnosticDelayOf, hv]
  · intro n hn
    simp [diagnosticDelayOf, jsTruthy, hn]
  · intro v hv
    simp [diagnosticDelayOf, hv]
  · simp [activateTrace]

/-- C10 witness: a configured value of 750 is used as is, a configured
zero falls back to 500, and on the sample host (whose setting is 0) the
registration receives the computed fallback delay. -/
theorem liveDiagnosticDelay_fallback_witness :
    (diagnosticDelayOf (ConfigValue.num 750) = ConfigValue.num 750)
    ∧ (diagnosticDelayOf (ConfigValue.num 0) = ConfigValue.num 500)
    ∧ (Effect.registerLanguageProviders
        (diagnosticDelayOf (sampleHost.settingsAt 0 "liveDiagnosticDelay")) ∈
      activateTrace sampleHost) :=
  ⟨(liveDiagnosticDelay_fallback sampleHost).2.2.2.2.1 750 (by norm_num),
   (liveDiagnosticDelay_fallback sampleHost).2.1,
   (liveDiagnosticDelay_fallback sampleHost).2.2.2.2.2.2⟩

/-- C4: on an active-kernel-change event whose kernel id is `KernelId`,
the handler replaces cells `[0, cells.length)` with cells that keep the
original `cellKind`, source text, outputs and metadata and change only
the language to `getCellLanguage(cellMetadata, documentLanguageInfo,
cell.language)`; on an event with an undefined kernel or a different
kernel id, no edit is applied. -/
theorem updateDocumentLanguages_spec {μ δ ω Δ Λ : Type} (h : IpynbHelpers μ δ Δ Λ)
    (kernelId : String) (e : KernelChangeEvent μ δ ω) :
    (∀ k, e.kernel = some k → k.id = kernelId →
      updateDocumentLanguages h kernelId e = some
        { languages := h.notebookCellLanguages,
          editUri := e.document.uri,
          editStart := 0,
          editStop := e.document.cells.length,
          cellData := e.document.cells.map fun cell =>
            { cellKind := cell.cellKind,
              source := cell.text,
              language := h.getCellLanguage (h.getDotNetMetadata cell.metadata)
                (h.getLanguageInfoMetadata e.document.metadata) cell.language,
              outputs := cell.outputs,
              metadata := cell.metadata } })
    ∧ (e.kernel = none → updateDocumentLanguages h kernelId e = none)
    ∧ (∀ k, e.kernel = some k → k.id ≠ kernelId →
        updateDocumentLanguages h kernelId e = none) := by
  refine ⟨?_, ?_, ?_⟩
  · intro k hk hid
    simp [updateDocumentLanguages, hk, hid]
  · intro hk
    simp [updateDocumentLanguages, hk]
  · intro k hk hid
    simp [updateDocumentLanguages, hk, hid]

/-- C4 witness: on a concrete one-cell document, a matching kernel id
yields exactly the language-only rewrite, while an undefined kernel and
a mismatched kernel id leave the document unedited. -/
theorem updateDocumentLanguages_spec_witness :
    (updateDocumentLanguages sampleHelpers "kid" ⟨sampleDoc, some ⟨"kid"⟩⟩ =
      some
        { languages := ["dotnet-interactive.csharp", "dotnet-interactive.fsharp"],
          editUri := ⟨"file:///a.dib"⟩,
          editStart := 0,
          editStop := 1,
          cellData := [{ cellKind := 1, source := "Console.WriteLine(1);",
                         language := "meta|docmeta|csharp", outputs := ["out"],
                         metadata := "meta" }] })
    ∧ (updateDocumentLanguages sampleHelpers "kid" ⟨sampleDoc, none⟩ = none)
    ∧ (updateDocumentLanguages sampleHelpers "kid" ⟨sampleDoc, some ⟨"other"⟩⟩ = none) :=
  ⟨(updateDocumentLanguages_spec sampleHelpers "kid" ⟨sampleDoc, some ⟨"kid"⟩⟩).1
      ⟨"kid"⟩ rfl rfl,
   (updateDocumentLanguages_spec sampleHelpers "kid" ⟨sampleDoc, none⟩).2.1 rfl,
   (updateDocumentLanguages_spec sampleHelpers "kid" ⟨sampleDoc, some ⟨"other"⟩⟩).2.2
      ⟨"other"⟩ rfl (by decide)⟩

/-- C5: a cell-language-change event produces a workspace edit exactly
when the new language is a dotnet-interactive language and the cell is
found in the document's cell list; the edit replaces only that cell's
metadata with `withDotNetMetadata(cell.metadata,
DotNetCellMetadata(getSimpleLanguage(language)))`; otherwise no edit is
created. -/
theorem updateCellLanguageInMetadata_spec {μ δ ω Δ Λ : Type}
    (h : IpynbHelpers μ δ Δ Λ) (ev : LanguageChangeEvent μ δ ω) :
    ((updateCellLanguageInMetadata h ev).isSome ↔
      (h.isDotnetInteractiveLanguage ev.language = true ∧
        (ev.document.cells.findIdx? (fun c => c.id == ev.cell.id)).isSome))
    ∧ (∀ i, h.isDotnetInteractiveLanguage ev.language = true →
        ev.document.cells.findIdx? (fun c => c.id == ev.cell.id) = some i →
        updateCellLanguageInMetadata h ev = some
          { uri := ev.document.uri, index := i,
            metadata := h.withDotNetMetadata ev.cell.metadata
              ⟨h.getSimpleLanguage ev.language⟩ })
    ∧ (h.isDotnetInteractiveLanguage ev.language = false →
        updateCellLanguageInMetadata h ev = none)
    ∧ (ev.document.cells.findIdx? (fun c => c.id == ev.cell.id) = none →
        updateCellLanguageInMetadata h ev = none) := by
  refine ⟨?_, ?_, ?_, ?_⟩
  · cases hb : h.isDotnetInteractiveLanguage ev.language
    · simp [updateCellLanguageInMetadata, hb]
    · cases hf : ev.document.cells.findIdx? (fun c => c.id == ev.cell.id) <;>
        simp [updateCellLanguageInMetadata, hb, hf]
  · intro i hb hf
    simp [updateCellLanguageInMetadata, hb, hf]
  · intro hb
    simp [updateCellLanguageInMetadata, hb]
  · intro hf
    cases hb : h.isDotnetInteractiveLanguage ev.language <;>
      simp [updateCellLanguageInMetadata, hb, hf]

/-- C5 witness: a dotnet-interactive language on a cell present in the
document yields the single-cell metadata edit; a non-interactive
language and a cell absent from the document yield no edit. -/
theorem updateCellLanguageInMetadata_spec_witness :
    (updateCellLanguageInMetadata sampleHelpers
      ⟨sampleCell, sampleDoc, "dotnet-interactive.csharp"⟩ =
      some { uri := ⟨"file:///a.dib"⟩, index := 0, metadata := "meta:csharp" })
    ∧ (updateCellLanguageInMetadata sampleHelpers ⟨sampleCell, sampleDoc, "python"⟩ =
        none)
    ∧ (updateCellLanguageInMetadata sampleHelpers
        ⟨{ sampleCell with id := 99 }, sampleDoc, "dotnet-interactive.csharp"⟩ =
        none) :=
  ⟨(updateCellLanguageInMetadata_spec sampleHelpers
      ⟨sampleCell, sampleDoc, "dotnet-interactive.csharp"⟩).2.1 0 (by decide) (by decide),
   (updateCellLanguageInMetadata_spec sampleHelpers
      ⟨sampleCell, sampleDoc, "python"⟩).2.2.1 (by decide),
   (updateCellLanguageInMetadata_spec sampleHelpers
      ⟨{ sampleCell with id := 99 }, sampleDoc, "dotnet-interactive.csharp"⟩).2.2.2
      (by decide)⟩

/-- C6: one firing of the close event calls `closeClient` exactly once,
with the closed document's URI; `closeClient` removes and disposes the
transport stored for that identity when present and is a no-op when
absent. -/
theorem closeClient_on_document_close {μ δ ω : Type} (doc : NotebookDocument μ δ ω)
    (table : ClientMapperTable) :
    (onDidCloseNotebookDocument doc = [MapperCall.closeClient doc.uri])
    ∧ (∀ e ∈ (closeClient table doc.uri).1, e.1 ≠ doc.uri)
    ∧ (∀ e ∈ table, e.1 ≠ doc.uri → e ∈ (closeClient table doc.uri).1)
    ∧ (∀ tid, (doc.uri, tid) ∈ table → tid ∈ (closeClient table doc.uri).2)
    ∧ ((∀ e ∈ table, e.1 ≠ doc.uri) → closeClient table doc.uri = (table, [])) := by
  refine ⟨rfl, ?_, ?_, ?_, ?_⟩
  · intro e he
    have h2 := (List.mem_filter.mp he).2
    simpa using h2
  · intro e he hne
    exact List.mem_filter.mpr ⟨he, by simpa using hne⟩
  · intro tid htid
    exact List.mem_map.mpr ⟨(doc.uri, tid), List.mem_filter.mpr ⟨htid, by simp⟩, rfl⟩
  · intro hall
    have h1 : table.filter (fun e => !(e.1 == doc.uri)) = table :=
      List.filter_eq_self.mpr (fun a ha => by simpa using hall a ha)
    have h2 : table.filter (fun e => e.1 == doc.uri) = [] := by
      simp only [List.filter_eq_nil_iff]
      intro a ha
      simpa using hall a ha
    simp [closeClient, h1, h2]

/-- C6 witness: on the sample table, closing the document with the first
URI removes and disposes exactly its transport, and closing a document
with an unknown URI is a no-op. -/
theorem closeClient_on_document_close_witness :
    (onDidCloseNotebookDocument
        (⟨⟨"file:///a.dib"⟩, [], "docmeta", []⟩ : NotebookDocument String String String) =
      [MapperCall.closeClient ⟨"file:///a.dib"⟩])
    ∧ ((5 : Nat) ∈ (closeClient sampleTable ⟨"file:///a.dib"⟩).2)
    ∧ (closeClient sampleTable ⟨"file:///zzz.dib"⟩ = (sampleTable, [])) :=
  ⟨(closeClient_on_document_close
      (⟨⟨"file:///a.dib"⟩, [], "docmeta", []⟩ : NotebookDocument String String String)
      sampleTable).1,
   (closeClient_on_document_close
      (⟨⟨"file:///a.dib"⟩, [], "docmeta", []⟩ : NotebookDocument String String String)
      sampleTable).2.2.2.1 5 (by decide),
   (closeClient_on_document_close
      (⟨⟨"file:///zzz.dib"⟩, [], "docmeta", []⟩ : NotebookDocument String String String)
      sampleTable).2.2.2.2 (by decide)⟩

/-- After `n` arrivals from the empty per-key state, one creation is in
flight with `n` waiters and exactly one launch has occurred. -/
theorem arrive_iterate (n : Nat) :
    arrive^[n + 1] SingleFlightState.initial =
      ⟨.inFlight (n + 1), 1, []⟩ := by
  induction n with
  | zero => rfl
  | succ m ih =>
    rw [Function.iterate_succ_apply', ih]
    rfl

/-- C7: `N ≥ 1` concurrent callers of `getOrCreateClient` for one
identity cause exactly one launch; on success all observe the same
transport, which is cached; on failure all observe the failure, nothing
is cached, and a later call launches the factory afresh. -/
theorem getOrCreateClient_single_flight (n : Nat) (hn : 1 ≤ n) (outcome : Option Nat) :
    ((runConcurrent n outcome).launches = 1)
    ∧ (∀ t, outcome = some t →
        (runConcurrent n outcome).results = List.replicate n (.transport t)
        ∧ (runConcurrent n outcome).key = .cached t)
    ∧ (outcome = none →
        (runConcurrent n outcome).results = List.replicate n .failure
        ∧ (runConcurrent n outcome).key = .absent)
    ∧ (outcome = none → (arrive (runConcurrent n outcome)).launches = 2) := by
  obtain ⟨m, rfl⟩ : ∃ m, n = m + 1 := ⟨n - 1, (Nat.succ_pred_eq_of_pos hn).symm⟩
  have hiter := arrive_iterate m
  refine ⟨?_, ?_, ?_, ?_⟩
  · unfold runConcurrent
    rw [hiter]
    cases outcome <;> rfl
  · intro t ho
    subst ho
    unfold runConcurrent
    rw [hiter]
    exact ⟨rfl, rfl⟩
  · intro ho
    subst ho
    unfold runConcurrent
    rw [hiter]
    exact ⟨rfl, rfl⟩
  · intro ho
    subst ho
    unfold runConcurrent
    rw [hiter]
    rfl

/-- C7 witness: three concurrent callers — one launch and three equal
results, both for a successful creation of transport 42 and for a
failed creation, after which the key is uncached and a retry launches
again. -/
theorem getOrCreateClient_single_flight_witness :
    ((runConcurrent 3 (some 42)).launches = 1)
    ∧ ((runConcurrent 3 (some 42)).results =
        [.transport 42, .transport 42, .transport 42])
    ∧ ((runConcurrent 3 none).results = [.failure, .failure, .failure])
    ∧ ((runConcurrent 3 none).key = .absent)
    ∧ ((arrive (runConcurrent 3 none)).launches = 2) :=
  ⟨(getOrCreateClient_single_flight 3 (by norm_num) (some 42)).1,
   ((getOrCreateClient_single_flight 3 (by norm_num) (some 42)).2.1 42 rfl).1,
   ((getOrCreateClient_single_flight 3 (by norm_num) none).2.2.1 rfl).1,
   ((getOrCreateClient_single_flight 3 (by norm_num) none).2.2.1 rfl).2,
   (getOrCreateClient_single_flight 3 (by norm_num) none).2.2.2 rfl⟩

/-- On every event stream whatsoever, the modelled `waitForReady`
resolves by the configured bound. -/
theorem waitForReadyModel_resolves_by_bound (parsePort : String → Option Nat)
    (isFailureLine : String → Bool) (bound : Nat) :
    ∀ events, (waitForReadyModel parsePort isFailureLine bound events).resolveTime
      ≤ bound := by
  intro events
  induction events with
  | nil => exact Nat.le_refl bound
  | cons hd tl ih =>
    obtain ⟨t, ev⟩ := hd
    cases ev with
    | exited =>
      unfold waitForReadyModel
      by_cases ht : t < bound
      · rw [if_pos ht]
        exact Nat.le_of_lt ht
      · rw [if_neg ht]
    | line s =>
      unfold waitForReadyModel
      by_cases ht : t < bound
      · rw [if_pos ht]
        by_cases hf : isFailureLine s
        · rw [if_pos hf]
          exact Nat.le_of_lt ht
        · rw [if_neg hf]
          cases hp : parsePort s with
          | none => exact ih
          | some p => exact Nat.le_of_lt ht
      · rw [if_neg ht]

/-- On a stream with no readiness line, no failure line and no exit,
the modelled `waitForReady` times out exactly at the bound. -/
theorem waitForReadyModel_timeout_of_quiet (parsePort : String → Option Nat)
    (isFailureLine : String → Bool) (bound : Nat) :
    ∀ events, noProtocolEvent parsePort isFailureLine events = true →
      waitForReadyModel parsePort isFailureLine bound events =
        ⟨.error .handshakeTimeout, bound⟩ := by
  intro events
  induction events with
  | nil => intro _; rfl
  | cons hd tl ih =>
    intro h
    obtain ⟨t, ev⟩ := hd
    simp only [noProtocolEvent, List.all_cons, Bool.and_eq_true] at h
    obtain ⟨h1, h2⟩ := h
    cases ev with
    | exited => exact absurd h1 Bool.false_ne_true
    | line s =>
      have hnone2 : parsePort s = none := eq_of_beq (Bool.and_eq_true_iff.mp h1).1
      have hfail2 : isFailureLine s = false := eq_of_beq (Bool.and_eq_true_iff.mp h1).2
      unfold waitForReadyModel
      by_cases ht : t < bound
      · rw [if_pos ht, if_neg (by simp [hfail2]), hnone2]
        exact ih h2
      · rw [if_neg ht]

/-- C8 (amended): for every transport whose subprocess never writes a
readiness line, never emits a recognized failure line, and does not
exit during the handshake, `waitForReady()` fails with
`HandshakeTimeout` exactly at the configured wall-clock bound (a
recognized failure line or an exit instead fails with
`HandshakeProtocolError`); and on every event stream whatsoever
`waitForReady` resolves by the bound — it never suspends its caller
indefinitely. -/
theorem waitForReady_timeout_bounded (parsePort : String → Option Nat)
    (isFailureLine : String → Bool) (bound : Nat)
    (events : List (Nat × SubprocessEvent))
    (hquiet : noProtocolEvent parsePort isFailureLine events = true) :
    ((waitForReadyModel parsePort isFailureLine bound events).result =
      .error .handshakeTimeout)
    ∧ ((waitForReadyModel parsePort isFailureLine bound events).resolveTime = bound)
    ∧ (∀ evs,
        (waitForReadyModel parsePort isFailureLine bound evs).resolveTime ≤ bound) :=
  ⟨by rw [waitForReadyModel_timeout_of_quiet parsePort isFailureLine bound events hquiet],
   by rw [waitForReadyModel_timeout_of_quiet parsePort isFailureLine bound events hquiet],
   waitForReadyModel_resolves_by_bound parsePort isFailureLine bound⟩

/-- C8 counterexample: a subprocess that never writes a readiness line
but emits a recognized failure line before the bound makes
`waitForReady` fail with `HandshakeProtocolError`, not
`HandshakeTimeout`, refuting the claim as stated for that transport. -/
theorem waitForReady_never_ready_counterexample :
    (sampleParsePort "kernel failed" = none)
    ∧ ((waitForReadyModel sampleParsePort sampleIsFailureLine 5000
        [(1, .line "kernel failed")]).result = .error .handshakeProtocolError)
    ∧ (Except.error HandshakeError.handshakeProtocolError ≠
        (Except.error HandshakeError.handshakeTimeout : Except HandshakeError Nat)) := by
  refine ⟨rfl, rfl, ?_⟩
  intro h
  injection h with h2
  exact HandshakeError.noConfusion h2

/-- C8 witness: a subprocess that emits only unrecognized output lines
before the 5000 ms bound times out with `HandshakeTimeout` exactly at
5000. -/
theorem waitForReady_timeout_bounded_witness :
    (noProtocolEvent sampleParsePort sampleIsFailureLine
      [(1, .line "starting"), (2, .line "loading")] = true)
    ∧ ((waitForReadyModel sampleParsePort sampleIsFailureLine 5000
        [(1, .line "starting"), (2, .line "loading")]).result =
      .error .handshakeTimeout)
    ∧ ((waitForReadyModel sampleParsePort sampleIsFailureLine 5000
        [(1, .line "starting"), (2, .line "loading")]).resolveTime = 5000) :=
  ⟨by decide,
   (waitForReady_timeout_bounded sampleParsePort sampleIsFailureLine 5000
      [(1, .line "starting"), (2, .line "loading")] (by decide)).1,
   (waitForReady_timeout_bounded sampleParsePort sampleIsFailureLine 5000
      [(1, .line "starting"), (2, .line "loading")] (by decide)).2.1⟩

end Interactive
